import Mathlib

/-!
Shallow embedding of the MiniAGI main loop (`miniagi.py`).

Strings are Lean `String`s; the Python string operations used by the loop
(`split("\n")`, `replace`, slicing, `in`, `len`) are re-implemented below by
structural recursion over `List Char` so that concrete runs reduce inside the
kernel.  External collaborators (the OpenAI client, the ThinkGPT history
store and summarizer, the command handlers' underlying effects, console
input) are modelled as oracle inputs supplied to each loop iteration; the
loop logic itself is transcribed from the source.
-/

namespace MiniAGI

/-- Python `s.split("\n")`: accumulate characters up to each newline.
Always returns at least one element, like the Python original. -/
def splitNlAux : List Char → List Char → List String
  | acc, [] => [String.mk acc]
  | acc, c :: rest =>
    if c = '\n' then String.mk acc :: splitNlAux [] rest
    else splitNlAux (acc ++ [c]) rest

/-- Python `response_text.split("\n")`. -/
def pySplitLines (s : String) : List String := splitNlAux [] s.data

/-- Whether the first list is a prefix of the second. -/
def isPrefixList : List Char → List Char → Bool
  | [], _ => true
  | _ :: _, [] => false
  | a :: as, b :: bs => a == b && isPrefixList as bs

/-- Python `s.replace(old, new)`: non-overlapping, left-to-right.  The fuel
argument only serves totality; every step consumes at least one character
(the source never calls this with an empty `old`), so fuel = input length is
exact. -/
def replaceAux (old new : List Char) : Nat → List Char → List Char
  | _, [] => []
  | 0, c :: rest => c :: rest
  | fuel + 1, c :: rest =>
    if isPrefixList old (c :: rest) then
      new ++ replaceAux old new fuel (List.drop old.length (c :: rest))
    else
      c :: replaceAux old new fuel rest

/-- Python `s.replace(old, new)`. -/
def pyReplace (s old new : String) : String :=
  String.mk (replaceAux old.data new.data s.data.length s.data)

/-- Python `needle in hay` for strings. -/
def containsList (needle : List Char) : List Char → Bool
  | [] => isPrefixList needle []
  | c :: rest => isPrefixList needle (c :: rest) || containsList needle rest

/-- Python `needle in hay`. -/
def pyContains (hay needle : String) : Bool := containsList needle.data hay.data

/-- Python `len(s)` (code points). -/
def pyLen (s : String) : Nat := s.data.length

/-- Python `s[:n]`. -/
def pyTake (s : String) (n : Nat) : String := String.mk (s.data.take n)

/-- Python `"\n".join(xs)`. -/
def joinNl : List String → String
  | [] => ""
  | [s] => s
  | s :: rest => s ++ "\n" ++ joinNl rest

/-- Python `xs[0]` on a list that is never empty (the result of `split`). -/
def pyHead (xs : List String) : String := xs.headD ""

/-! ### The tag-extraction regex

`PATTERN = r'<(r|c)>(.*?)</(r|c)>'` applied with `re.findall` to the first
response line.  `re.findall` scans left to right for non-overlapping
matches; at each candidate start the lazy group takes the shortest content
(no newline) followed by a closing tag; after a match, scanning resumes past
it, and after a failed start it resumes one character later. -/

/-- One match of the pattern: the captured groups `(r|c)`, `(.*?)`, `(r|c)`. -/
structure TagMatch where
  openTag : Char
  content : String
  closeTag : Char
deriving DecidableEq, Repr

/-- The `(r|c)` alternation. -/
def isRC (c : Char) : Bool := c == 'r' || c == 'c'

/-- Match the literal `<(r|c)>` at the head of the input. -/
def readOpen : List Char → Option (Char × List Char)
  | '<' :: t :: '>' :: rest => if isRC t then some (t, rest) else none
  | _ => none

/-- Match the literal `</(r|c)>` at the head of the input. -/
def readClose : List Char → Option (Char × List Char)
  | '<' :: '/' :: t :: '>' :: rest => if isRC t then some (t, rest) else none
  | _ => none

/-- Lazy `(.*?)</(r|c)>`: the shortest newline-free content followed by a
closing tag.  Returns (content, closing tag letter, remaining input). -/
def lazyContent : List Char → Option (List Char × Char × List Char)
  | [] => none
  | c :: rest =>
    match readClose (c :: rest) with
    | some (t, rest2) => some ([], t, rest2)
    | none =>
      if c = '\n' then none
      else
        match lazyContent rest with
        | some (content, t, rest2) => some (c :: content, t, rest2)
        | none => none

/-- `re.findall` scan.  Fuel only serves totality: every recursive call is on
a strictly shorter list, so fuel = input length is exact. -/
def findallAux (fuel : Nat) (cs : List Char) : List TagMatch :=
  match fuel, cs with
  | 0, _ => []
  | _ + 1, [] => []
  | fuel + 1, c :: rest =>
    match readOpen (c :: rest) with
    | some (t, afterOpen) =>
      match lazyContent afterOpen with
      | some (content, t2, rest2) =>
        { openTag := t, content := String.mk content, closeTag := t2 } ::
          findallAux fuel rest2
      | none => findallAux fuel rest
    | none => findallAux fuel rest

/-- `re.findall(PATTERN, line)`. -/
def findallRCs (line : String) : List TagMatch :=
  findallAux line.data.length line.data

/-! ### Loop state and per-iteration oracle inputs -/

/-- A Python value as far as the loop's `observation` variable is concerned:
every assignment is a string except the `web_search` branch, which stores the
raw `ddg` return value and that is `None` when the search yields nothing. -/
inductive PyVal where
  | str (s : String)
  | pyNone
deriving DecidableEq, Repr

/-- Environment-derived configuration fixed before the loop starts. -/
structure Config where
  promptUser : Bool
  max_memory_item_size : Nat

/-- Result of `agent.predict`: the raw response text, or an
`openai.error.InvalidRequestError` carrying its message (the only backend
failure the loop handles; the spec's ModelClient contract names exactly this
distinguishable error). -/
inductive PredictResult where
  | ok (text : String)
  | invalidRequest (msg : String)
deriving DecidableEq, Repr

/-- Outcomes of the external effects behind each command handler: either the
value the handler's body produces, or the message of the exception it
raises.  For `web_search`, `ddg` returns `none` for a null result set.
For `web_scrape` and `read_file` the value is what the summarizer call on
the fetched content returns. -/
structure ExecEnv where
  pythonResult : Except String String
  shellResult : Except String (String × String)
  searchResult : Except String (Option String)
  scrapeResult : Except String String
  readFileResult : Except String String

/-- Everything the outside world feeds one loop iteration. -/
structure IterInput where
  predict : PredictResult
  talkInput : String
  confirmInput : String
  exec : ExecEnv
  summarize : String → Nat → String → String

/-- The loop's cross-iteration mutable state: the model client's name (the
fallback path replaces it), the agent's append-only history store
(`memorize`/`remember`), `summarized_history`, and the module-level
`observation` variable, which persists between iterations.  The ThinkGPT
history store is modelled as loop state per the spec's black-box contract. -/
structure AgentState where
  modelName : String
  memory : List String
  summarized_history : String
  observation : PyVal
deriving DecidableEq, Repr

/-- State at loop entry (`summarized_history = ""`, `observation = ""`,
nothing memorized). -/
def initialState (model : String) : AgentState :=
  { modelName := model, memory := [], summarized_history := "",
    observation := .str "" }

/-- Context block rebuilt at the top of each iteration from the running
summary and the remembered action buffer. -/
def buildContext (summarized_history : String) (action_buffer : List String) :
    String :=
  "HISTORY\n" ++ summarized_history ++ "\nPREV ACTIONS:\n" ++
    joinNl action_buffer

/-- Transcription of `update_memory`: renders the new memory item, asks the
summarizer for a new summary (note the missing space in the instruction
hint, from Python implicit string-literal concatenation), memorizes the new
item, and returns the new summary together with the updated store.  Whether
callers keep the returned summary is their business, as in the source. -/
def update_memory (summarize : String → Nat → String → String)
    (max_memory_item_size : Nat)
    (_action _observation previous_summary : String)
    (agentMemory : List String) : String × List String :=
  let new_memory := "ACTION\n" ++ _action ++ "\nRESULT:\n" ++ _observation ++ "\n"
  let new_summary := summarize (previous_summary ++ "\n" ++ new_memory)
    max_memory_item_size
    ("Generate a new summary given the previous summary" ++
      "of the agent's history and its last action. Be concise, use abbreviations.")
  (new_summary, agentMemory ++ [new_memory])

/-! ### Response parsing (source lines 188-215) -/

/-- Outcome of the parse `try` block: `done` exits via `sys.exit(0)`
(`SystemExit` is not caught by `except Exception`), `action` falls through
to dispatch, `failed` is any exception during tag extraction (fewer than two
matches), carrying `res_lines[0]` for the except clause.  (On a
single-match line the source also assigns `thought` before failing on
`matches[1]`, but that value is never read before being reassigned.) -/
inductive ParseOutcome where
  | done (thought : String)
  | action (thought command arg : String)
  | failed (firstLine : String)
deriving DecidableEq, Repr

/-- The parse section of the loop body.  Note the source's line
`res_line = res_lines[:-1]` binds a fresh never-read name (`res_line`, not
`res_lines`), so the trailing done-bearing line is not actually dropped; the
dead binding is kept here verbatim. -/
def parseResponse (response_text : String) : ParseOutcome :=
  let res_lines := pySplitLines response_text
  let line0 := pyHead res_lines
  let tagMatches := findallRCs line0
  if h2 : 2 ≤ tagMatches.length then
    let thought := (tagMatches.get ⟨0, by omega⟩).content
    let command := (tagMatches.get ⟨1, by omega⟩).content
    if command = "done" then .done thought
    else
      let res_line := if pyContains (res_lines.getLastD "") "done" then
        res_lines.dropLast else res_lines
      let arg := joinNl res_lines.tail
      let arg := pyReplace arg "```" ""
      .action thought command arg
  else .failed line0

/-! ### Command dispatch (source lines 239-286) -/

/-- What the dispatch `if/elif` chain leaves behind: a (possibly unchanged)
`observation`, a raised exception, or `sys.exit(0)` from the dead in-dispatch
`done` branch.  A command matching no branch leaves `observation` as it was. -/
inductive DispatchOut where
  | ok (obs : PyVal)
  | raised (msg : String)
  | exited
deriving DecidableEq, Repr

/-- The dispatch chain.  `talk_to_user` never reaches it (handled earlier),
and an unrecognized command takes no branch, so the incoming `observation`
survives. -/
def dispatch (command : String) (env : ExecEnv) (observation : PyVal) :
    DispatchOut :=
  if command = "execute_python" then
    match env.pythonResult with
    | .ok out => .ok (.str out)
    | .error e => .raised e
  else if command = "execute_shell" then
    match env.shellResult with
    | .ok p => .ok (.str ("STDOUT:\n" ++ p.1 ++ "\nSTDERR:\n" ++ p.2))
    | .error e => .raised e
  else if command = "web_search" then
    match env.searchResult with
    | .ok (some results) => .ok (.str results)
    | .ok none => .ok .pyNone
    | .error e => .raised e
  else if command = "web_scrape" then
    match env.scrapeResult with
    | .ok text => .ok (.str text)
    | .error e => .raised e
  else if command = "read_file" then
    match env.readFileResult with
    | .ok content => .ok (.str content)
    | .error e => .raised e
  else if command = "done" then
    .exited
  else
    .ok observation

/-! ### One loop iteration -/

/-- Result of one pass through the `while True` body: continue with a new
state, or `sys.exit(code)` with the last console message, carrying the state
at termination. -/
inductive LoopResult where
  | next (st : AgentState)
  | exit (code : Nat) (finalMessage : String) (st : AgentState)
deriving DecidableEq, Repr

/-- Source line 218: the full rendered action. -/
def renderAction (thought command arg : String) : String :=
  thought ++ "\nCmd: " ++ command ++ ", Arg: \"" ++ arg ++ "\""

/-- Source line 217: `_arg`, the argument as abbreviated for display. -/
def abbreviateArg (arg : String) : String :=
  if pyLen arg < 64 then pyReplace arg "\n" "\\n"
  else pyReplace (pyTake arg 64 ++ "...") "\n" "\\n"

/-- The corrective observation recorded on parse failure. -/
def malformedObservation : String :=
  "This command was formatted" ++
    " incorrectly. Use the correct syntax using the <r> and <c> tags."

/-- The `except Exception` clause around dispatch (source lines 292-303):
record the error text as the observation.  The summarizer's returned summary
is discarded, as at every call site in the source. -/
def executionExcept (cfg : Config) (inp : IterInput) (action e : String)
    (st : AgentState) : LoopResult :=
  let observation := "The command returned an error:\n" ++ e ++ "\n"
  let (_, mem) := update_memory inp.summarize cfg.max_memory_item_size
    action observation st.summarized_history st.memory
  .next { st with memory := mem, observation := .str observation }

/-- One iteration of the `while True` loop.  Mirrors source lines 155-303;
console-only output (spinner, colored prints, the DEBUG dumps) is dropped
except for messages passed to `sys.exit` paths, which are carried in the
result.  The `"OBSERVATION: " + observation` print raises `TypeError` when
`observation` is `None` (the null `web_search` case), which the enclosing
`except` catches like any handler error. -/
def runIteration (cfg : Config) (inp : IterInput) (st : AgentState) :
    LoopResult :=
  match inp.predict with
  | .invalidRequest e =>
    if pyContains e "gpt-4" then
      .next { st with modelName := "gpt-3.5-turbo" }
    else
      .exit 0 ("Error accessing the OpenAI API: " ++ e) st
  | .ok response_text =>
    match parseResponse response_text with
    | .failed line0 =>
      let observation := malformedObservation
      let (_, mem) := update_memory inp.summarize cfg.max_memory_item_size
        line0 observation st.summarized_history st.memory
      .next { st with memory := mem, observation := .str observation }
    | .done thought =>
      .exit 0 ("The agent concluded: " ++ thought) st
    | .action thought command arg =>
      let _arg := abbreviateArg arg
      let action := renderAction thought command arg
      let abbreviated_action := renderAction thought command _arg
      if command = "talk_to_user" then
        let observation := "The user responded with: " ++ inp.talkInput ++ "."
        let (_, mem) := update_memory inp.summarize cfg.max_memory_item_size
          abbreviated_action observation st.summarized_history st.memory
        .next { st with memory := mem, observation := .str observation }
      else if cfg.promptUser ∧ 0 < pyLen inp.confirmInput then
        let observation := "The user responded with: {user_input}\n" ++
          "Take this comment into consideration."
        let (_, mem) := update_memory inp.summarize cfg.max_memory_item_size
          abbreviated_action observation st.summarized_history st.memory
        .next { st with memory := mem, observation := .str observation }
      else
        match dispatch command inp.exec st.observation with
        | .exited => .exit 0 "Objective achieved." st
        | .raised e => executionExcept cfg inp action e st
        | .ok obs =>
          match obs with
          | .pyNone =>
            executionExcept cfg inp action
              "can only concatenate str (not \"NoneType\") to str" st
          | .str s =>
            let (_, mem) := update_memory inp.summarize cfg.max_memory_item_size
              action s st.summarized_history st.memory
            .next { st with memory := mem, observation := .str s }

/-! ### Test fixtures shared by the claim theorems -/

/-- Configuration with the confirmation gate off. -/
def offCfg : Config := { promptUser := false, max_memory_item_size := 200 }

/-- Configuration with the confirmation gate on. -/
def onCfg : Config := { promptUser := true, max_memory_item_size := 200 }

/-- A summarizer oracle that tags the text it was given, so that its output
is visibly different from its input. -/
def sumOracle : String → Nat → String → String :=
  fun text _size _hint => "SUM[" ++ text ++ "]"

/-- Handler oracles that would all raise if reached. -/
def idleExec : ExecEnv :=
  { pythonResult := .error "not run", shellResult := .error "not run",
    searchResult := .error "not run", scrapeResult := .error "not run",
    readFileResult := .error "not run" }

/-- Iteration input from a predicted response, console inputs and handler
oracles, with the tagging summarizer. -/
def mkInput (p : PredictResult) (talk confirm : String) (ex : ExecEnv) :
    IterInput :=
  { predict := p, talkInput := talk, confirmInput := confirm, exec := ex,
    summarize := sumOracle }

/-- A 70-character argument, long enough to trigger abbreviation. -/
def longMsg : String := String.mk (List.replicate 70 'a')

/-! ### Claim theorems -/

/-- C1: the claim says the RunningSummary carried into the next iteration is
replaced wholesale by the Summarizer's output.  In the code `update_memory`
computes and returns that new summary, but every call site discards the
return value, so `summarized_history` stays empty forever.  Here a
successful `execute_python` iteration from the initial state leaves the
carried summary equal to `""`, even though `update_memory` itself returns
the (nonempty) summarizer output over previous summary + rendered action +
rendered observation. -/
theorem c1_running_summary_never_replaced :
    runIteration offCfg
      (mkInput (.ok "<r>t</r><c>execute_python</c>\nprint(1)") "" ""
        { idleExec with pythonResult := .ok "1\n" }) (initialState "gpt-4") =
      .next { modelName := "gpt-4",
              memory :=
                ["ACTION\nt\nCmd: execute_python, Arg: \"print(1)\"\nRESULT:\n1\n\n"],
              summarized_history := "",
              observation := .str "1\n" } ∧
    (update_memory sumOracle 200
        "t\nCmd: execute_python, Arg: \"print(1)\"" "1\n" "" []).1 =
      "SUM[\nACTION\nt\nCmd: execute_python, Arg: \"print(1)\"\nRESULT:\n1\n\n]" ∧
    ("SUM[\nACTION\nt\nCmd: execute_python, Arg: \"print(1)\"\nRESULT:\n1\n\n]" :
      String) ≠ "" := by
  refine ⟨by decide, by decide, by decide⟩

/-- C2: the claim says a done-bearing last line is dropped from the
argument.  The code assigns the shortened list to a fresh variable
`res_line` (a typo for `res_lines`) and then joins the original list, so
the trailing line survives: parsing this response yields the argument
`"ls\necho done"`, not `"ls"`. -/
theorem c2_trailing_done_line_kept :
    parseResponse "<r>t</r><c>execute_shell</c>\nls\necho done" =
      .action "t" "execute_shell" "ls\necho done" := by
  decide

/-- C5: the claim says the user's non-empty feedback becomes the recorded
Observation.  The string on the user-declined path is not an f-string, so
the literal placeholder `{user_input}` is recorded and the feedback text
appears nowhere: with feedback `"please do not"`, execution is skipped and
memory is updated, but the stored observation is the fixed placeholder
string and does not contain the feedback. -/
theorem c5_feedback_not_recorded_literal_placeholder :
    runIteration onCfg
      (mkInput (.ok "<r>t</r><c>execute_shell</c>\nrm file") "" "please do not"
        idleExec) (initialState "m") =
      .next { modelName := "m",
              memory :=
                ["ACTION\nt\nCmd: execute_shell, Arg: \"rm file\"\nRESULT:\nThe user responded with: {user_input}\nTake this comment into consideration.\n"],
              summarized_history := "",
              observation :=
                .str "The user responded with: {user_input}\nTake this comment into consideration." } ∧
    pyContains
      "ACTION\nt\nCmd: execute_shell, Arg: \"rm file\"\nRESULT:\nThe user responded with: {user_input}\nTake this comment into consideration.\n"
      "please do not" = false := by
  refine ⟨by decide, by decide⟩

/-- C9: the claim says a null `web_search` result set is reported but not
treated as an error.  In the code `observation` is then `None`, and the
unconditional `print("OBSERVATION: " + observation)` raises `TypeError`,
which the surrounding `except` turns into the execution-failure path: the
recorded observation is the rendered error, not a non-error report. -/
theorem c9_null_search_takes_error_path :
    runIteration offCfg
      (mkInput (.ok "<r>s</r><c>web_search</c>\nweather") "" ""
        { idleExec with searchResult := .ok none }) (initialState "m") =
      .next { modelName := "m",
              memory :=
                ["ACTION\ns\nCmd: web_search, Arg: \"weather\"\nRESULT:\nThe command returned an error:\ncan only concatenate str (not \"NoneType\") to str\n\n"],
              summarized_history := "",
              observation :=
                .str "The command returned an error:\ncan only concatenate str (not \"NoneType\") to str\n" } := by
  decide

/-- C6 counterexample: the claim says every memory-updating iteration
(including `talk_to_user`) stores the unabbreviated rendered action.  On the
`talk_to_user` path the source passes `abbreviated_action` to
`update_memory`: with a 70-character argument the stored record carries the
64-character-truncated form, which differs from the unabbreviated one. -/
theorem c6_counterexample_talk_abbreviated :
    runIteration offCfg
      (mkInput (.ok ("<r>ask</r><c>talk_to_user</c>\n" ++ longMsg)) "yes" ""
        idleExec) (initialState "m") =
      .next { modelName := "m",
              memory :=
                ["ACTION\n" ++
                  renderAction "ask" "talk_to_user" (pyTake longMsg 64 ++ "...") ++
                  "\nRESULT:\nThe user responded with: yes.\n"],
              summarized_history := "",
              observation := .str "The user responded with: yes." } ∧
    renderAction "ask" "talk_to_user" (pyTake longMsg 64 ++ "...") ≠
      renderAction "ask" "talk_to_user" longMsg := by
  refine ⟨by decide, by decide⟩

/-- C7 counterexample: the claim says an unrecognized command produces no
memory update for that iteration.  In the source the `print`/`update_memory`
pair after the dispatch chain is unconditional, so the iteration still
appends a record, pairing the action with whatever `observation` was left
over from before: from a state whose last observation was `"stale result"`,
the unknown command `fly_to_moon` appends a record and memory changes. -/
theorem c7_counterexample_unknown_command_updates_memory :
    runIteration offCfg
      (mkInput (.ok "<r>hm</r><c>fly_to_moon</c>\nnow") "" "" idleExec)
      { modelName := "m", memory := [], summarized_history := "",
        observation := .str "stale result" } =
      .next { modelName := "m",
              memory :=
                ["ACTION\nhm\nCmd: fly_to_moon, Arg: \"now\"\nRESULT:\nstale result\n"],
              summarized_history := "",
              observation := .str "stale result" } ∧
    (["ACTION\nhm\nCmd: fly_to_moon, Arg: \"now\"\nRESULT:\nstale result\n"] :
      List String) ≠ [] := by
  refine ⟨by decide, by decide⟩

/-- C3: for every response on which tag extraction fails (fewer than two
pattern matches on the first line), the iteration neither exits nor raises:
it records the raw first line as the action together with the corrective
observation about the required tag syntax, leaves the running summary
untouched, and continues. -/
theorem c3_parse_failure_recorded_and_continues (cfg : Config)
    (inp : IterInput) (st : AgentState) (response line0 : String)
    (hp : inp.predict = .ok response)
    (hf : parseResponse response = .failed line0) :
    runIteration cfg inp st =
      .next { st with
        memory := st.memory ++
          ["ACTION\n" ++ line0 ++ "\nRESULT:\n" ++ malformedObservation ++ "\n"],
        observation := .str malformedObservation } := by
  simp only [runIteration, hp, hf, update_memory]

/-- C3 witness: a tagless response takes the parse-failure path from the
initial state. -/
theorem c3_parse_failure_witness :
    runIteration offCfg (mkInput (.ok "garbage text\nmore") "" "" idleExec)
      (initialState "m") =
      .next { (initialState "m") with
        memory := (initialState "m").memory ++
          ["ACTION\ngarbage text\nRESULT:\n" ++ malformedObservation ++ "\n"],
        observation := .str malformedObservation } :=
  c3_parse_failure_recorded_and_continues offCfg
    (mkInput (.ok "garbage text\nmore") "" "" idleExec) (initialState "m")
    "garbage text\nmore" "garbage text" rfl (by decide)

/-- C4: whenever the parsed command is `done`, the iteration exits with
code 0 and the reasoning as the final message, with the state unchanged —
so no execution happened, no HistoryRecord was appended, and the
RunningSummary was not touched. -/
theorem c4_done_short_circuit (cfg : Config) (inp : IterInput)
    (st : AgentState) (response thought : String)
    (hp : inp.predict = .ok response)
    (hd : parseResponse response = .done thought) :
    runIteration cfg inp st =
      .exit 0 ("The agent concluded: " ++ thought) st := by
  simp only [runIteration, hp, hd]

/-- C4 witness: scenario B of the spec, from the initial state. -/
theorem c4_done_short_circuit_witness :
    runIteration offCfg
      (mkInput (.ok "<r>done</r><c>done</c>\nObjective complete") "" ""
        idleExec) (initialState "m") =
      .exit 0 ("The agent concluded: " ++ "done") (initialState "m") :=
  c4_done_short_circuit offCfg
    (mkInput (.ok "<r>done</r><c>done</c>\nObjective complete") "" "" idleExec)
    (initialState "m") "<r>done</r><c>done</c>\nObjective complete" "done"
    rfl (by decide)

/-- C8: on an `InvalidRequestError` whose message mentions `gpt-4`, the loop
swaps the model for `gpt-3.5-turbo` and retries the same iteration with
memory, summary and observation untouched; on an `InvalidRequestError` not
mentioning `gpt-4`, it prints the error and exits with code 0, with no
memory side effect either way. -/
theorem c8_invalid_request_fallback_or_exit (cfg : Config) (inp : IterInput)
    (st : AgentState) (msg : String)
    (hp : inp.predict = .invalidRequest msg) :
    (pyContains msg "gpt-4" = true →
      runIteration cfg inp st = .next { st with modelName := "gpt-3.5-turbo" }) ∧
    (pyContains msg "gpt-4" = false →
      runIteration cfg inp st =
        .exit 0 ("Error accessing the OpenAI API: " ++ msg) st) := by
  constructor <;> intro h <;> simp only [runIteration, hp, h] <;> simp

/-- C8 witness: both branches at concrete error messages, from the initial
state. -/
theorem c8_invalid_request_witness :
    runIteration offCfg
      (mkInput (.invalidRequest "The model gpt-4 does not exist") "" "" idleExec)
      (initialState "gpt-4") =
      .next { (initialState "gpt-4") with modelName := "gpt-3.5-turbo" } ∧
    runIteration offCfg
      (mkInput (.invalidRequest "rate limit exceeded") "" "" idleExec)
      (initialState "gpt-4") =
      .exit 0 ("Error accessing the OpenAI API: " ++ "rate limit exceeded")
        (initialState "gpt-4") :=
  ⟨(c8_invalid_request_fallback_or_exit offCfg
      (mkInput (.invalidRequest "The model gpt-4 does not exist") "" "" idleExec)
      (initialState "gpt-4") "The model gpt-4 does not exist" rfl).1 (by decide),
   (c8_invalid_request_fallback_or_exit offCfg
      (mkInput (.invalidRequest "rate limit exceeded") "" "" idleExec)
      (initialState "gpt-4") "rate limit exceeded" rfl).2 (by decide)⟩

/-- C6 (amended): the unabbreviated rendered action (full argument text) is
what memory updates after execution store — shown here for a successful
`execute_python` — while the `talk_to_user` branch passes the abbreviated,
display-form action to the memory update. -/
theorem c6_amended_memory_action_forms :
    (∀ (cfg : Config) (inp : IterInput) (st : AgentState)
      (response thought arg out : String),
      inp.predict = .ok response →
      parseResponse response = .action thought "execute_python" arg →
      cfg.promptUser = false →
      inp.exec.pythonResult = .ok out →
      runIteration cfg inp st =
        .next { st with
          memory := st.memory ++
            ["ACTION\n" ++ renderAction thought "execute_python" arg ++
              "\nRESULT:\n" ++ out ++ "\n"],
          observation := .str out }) ∧
    (∀ (cfg : Config) (inp : IterInput) (st : AgentState)
      (response thought arg : String),
      inp.predict = .ok response →
      parseResponse response = .action thought "talk_to_user" arg →
      runIteration cfg inp st =
        .next { st with
          memory := st.memory ++
            ["ACTION\n" ++
              renderAction thought "talk_to_user" (abbreviateArg arg) ++
              "\nRESULT:\n" ++
              ("The user responded with: " ++ inp.talkInput ++ ".") ++ "\n"],
          observation :=
            .str ("The user responded with: " ++ inp.talkInput ++ ".") }) ∧
    (∀ (cfg : Config) (inp : IterInput) (st : AgentState)
      (response thought cmd arg : String),
      inp.predict = .ok response →
      parseResponse response = .action thought cmd arg →
      cmd ≠ "talk_to_user" →
      cfg.promptUser = true →
      0 < pyLen inp.confirmInput →
      runIteration cfg inp st =
        .next { st with
          memory := st.memory ++
            ["ACTION\n" ++ renderAction thought cmd (abbreviateArg arg) ++
              "\nRESULT:\n" ++
              ("The user responded with: {user_input}\n" ++
                "Take this comment into consideration.") ++ "\n"],
          observation :=
            .str ("The user responded with: {user_input}\n" ++
              "Take this comment into consideration.") }) := by
  refine ⟨?_, ?_, ?_⟩
  · intro cfg inp st response thought arg out hp hpar hpu hpy
    simp only [runIteration, hp, hpar, hpu, dispatch, hpy, update_memory]
    simp
  · intro cfg inp st response thought arg hp hpar
    simp only [runIteration, hp, hpar, update_memory]
    simp
  · intro cfg inp st response thought cmd arg hp hpar hcmd hpu hconf
    simp only [runIteration, hp, hpar, hpu, update_memory, if_neg hcmd]
    simp [hconf]

/-- C6 amended witness: both conjuncts at concrete inputs. -/
theorem c6_amended_witness :
    runIteration offCfg
      (mkInput (.ok "<r>t</r><c>execute_python</c>\nprint(1)") "" ""
        { idleExec with pythonResult := .ok "1\n" }) (initialState "m") =
      .next { (initialState "m") with
        memory := (initialState "m").memory ++
          ["ACTION\n" ++ renderAction "t" "execute_python" "print(1)" ++
            "\nRESULT:\n1\n\n"],
        observation := .str "1\n" } ∧
    runIteration offCfg
      (mkInput (.ok ("<r>ask</r><c>talk_to_user</c>\n" ++ longMsg)) "yes" ""
        idleExec) (initialState "m") =
      .next { (initialState "m") with
        memory := (initialState "m").memory ++
          ["ACTION\n" ++
            renderAction "ask" "talk_to_user" (abbreviateArg longMsg) ++
            "\nRESULT:\nThe user responded with: yes.\n"],
        observation := .str ("The user responded with: " ++ "yes" ++ ".") } ∧
    runIteration onCfg
      (mkInput (.ok ("<r>t</r><c>execute_shell</c>\n" ++ longMsg)) "" "no"
        idleExec) (initialState "m") =
      .next { (initialState "m") with
        memory := (initialState "m").memory ++
          ["ACTION\n" ++
            renderAction "t" "execute_shell" (abbreviateArg longMsg) ++
            "\nRESULT:\n" ++
            ("The user responded with: {user_input}\n" ++
              "Take this comment into consideration.") ++ "\n"],
        observation :=
          .str ("The user responded with: {user_input}\n" ++
            "Take this comment into consideration.") } :=
  ⟨c6_amended_memory_action_forms.1 offCfg
      (mkInput (.ok "<r>t</r><c>execute_python</c>\nprint(1)") "" ""
        { idleExec with pythonResult := .ok "1\n" }) (initialState "m")
      "<r>t</r><c>execute_python</c>\nprint(1)" "t" "print(1)" "1\n"
      rfl (by decide) rfl rfl,
   c6_amended_memory_action_forms.2.1 offCfg
      (mkInput (.ok ("<r>ask</r><c>talk_to_user</c>\n" ++ longMsg)) "yes" ""
        idleExec) (initialState "m")
      ("<r>ask</r><c>talk_to_user</c>\n" ++ longMsg) "ask" longMsg
      rfl (by decide),
   c6_amended_memory_action_forms.2.2 onCfg
      (mkInput (.ok ("<r>t</r><c>execute_shell</c>\n" ++ longMsg)) "" "no"
        idleExec) (initialState "m")
      ("<r>t</r><c>execute_shell</c>\n" ++ longMsg) "t" "execute_shell"
      longMsg rfl (by decide) (by decide) rfl (by decide)⟩

/-- C7 (amended): an unrecognized command takes no dispatch branch and
computes no new observation, but the iteration does not skip the memory
update: it appends a record pairing the rendered action with the stale
observation carried over in the loop's `observation` variable, and
continues. -/
theorem c7_amended_unknown_command_stale_observation (cfg : Config)
    (inp : IterInput) (st : AgentState) (response thought cmd arg s : String)
    (hp : inp.predict = .ok response)
    (hpar : parseResponse response = .action thought cmd arg)
    (h1 : cmd ≠ "execute_python") (h2 : cmd ≠ "execute_shell")
    (h3 : cmd ≠ "web_search") (h4 : cmd ≠ "web_scrape")
    (h5 : cmd ≠ "read_file") (h6 : cmd ≠ "done") (h7 : cmd ≠ "talk_to_user")
    (hpu : cfg.promptUser = false) (ho : st.observation = .str s) :
    runIteration cfg inp st =
      .next { st with
        memory := st.memory ++
          ["ACTION\n" ++ renderAction thought cmd arg ++ "\nRESULT:\n" ++ s ++
            "\n"],
        observation := .str s } := by
  simp only [runIteration, hp, hpar, hpu, dispatch, update_memory,
    if_neg h1, if_neg h2, if_neg h3, if_neg h4, if_neg h5, if_neg h6,
    if_neg h7, ho]
  simp

/-- C7 amended witness: the unknown command `fly_to_moon` over a state with
a stale observation. -/
theorem c7_amended_witness :
    runIteration offCfg
      (mkInput (.ok "<r>hm</r><c>fly_to_moon</c>\nnow") "" "" idleExec)
      { modelName := "m", memory := [], summarized_history := "",
        observation := .str "stale result" } =
      .next { modelName := "m",
              memory := [] ++
                ["ACTION\n" ++ renderAction "hm" "fly_to_moon" "now" ++
                  "\nRESULT:\nstale result\n"],
              summarized_history := "",
              observation := .str "stale result" } :=
  c7_amended_unknown_command_stale_observation offCfg
    (mkInput (.ok "<r>hm</r><c>fly_to_moon</c>\nnow") "" "" idleExec)
    { modelName := "m", memory := [], summarized_history := "",
      observation := .str "stale result" }
    "<r>hm</r><c>fly_to_moon</c>\nnow" "hm" "fly_to_moon" "now" "stale result"
    rfl (by decide) (by decide) (by decide) (by decide) (by decide)
    (by decide) (by decide) (by decide) rfl rfl

/-- C10: extraction is purely positional and tag-name-agnostic.  Whenever
the pattern finds at least two matches on the first line, parsing succeeds,
the first match's content is taken as the reasoning and the second as the
command, regardless of which of the seven extracted matches carry `r` or
`c` tags, in which order, or how many further matches follow.  The concrete
conjuncts show the out-of-order, mismatched-tag and extra-pair cases. -/
theorem c10_tag_extraction_positional :
    (∀ (response : String) (m0 m1 : TagMatch) (rest : List TagMatch),
      findallRCs (pyHead (pySplitLines response)) = m0 :: m1 :: rest →
      parseResponse response =
        (if m1.content = "done" then ParseOutcome.done m0.content
         else ParseOutcome.action m0.content m1.content
           (pyReplace (joinNl (pySplitLines response).tail) "```" ""))) ∧
    parseResponse "<c>first</c><r>second</r>\narg" =
      .action "first" "second" "arg" ∧
    parseResponse "<r>think</c>x<c>act</r>\narg" =
      .action "think" "act" "arg" ∧
    parseResponse "<r>a</r><c>b</c><r>extra</r><c>more</c>\narg" =
      .action "a" "b" "arg" := by
  refine ⟨?_, by decide, by decide, by decide⟩
  intro response m0 m1 rest h
  simp only [parseResponse, h]
  split <;> simp_all

/-- C10 witness: the general conjunct applied to a concrete first line whose
two matches carry out-of-order tags. -/
theorem c10_tag_extraction_witness :
    parseResponse "<c>u</c><r>v</r>\nz" =
      (if ("v" : String) = "done" then ParseOutcome.done "u"
       else ParseOutcome.action "u" "v"
         (pyReplace (joinNl (pySplitLines "<c>u</c><r>v</r>\nz").tail)
           "```" "")) :=
  c10_tag_extraction_positional.1 "<c>u</c><r>v</r>\nz"
    ⟨'c', "u", 'c'⟩ ⟨'r', "v", 'r'⟩ [] (by decide)

end MiniAGI
